import Mathlib

/-!
Shallow embedding of the transactional core of `mastara-saas`:

* the patient profile data model
  (`internal/modules/patient/model/profile.go`, migration
  `000002_create_iam_schema.up.sql`),
* the structured API error type (`pkg/apierror/apierror.go`),
* the profile repository (`internal/modules/patient/store`,
  source file `src/unnamed/part_000`): the "Smart Upsert"
  `FindOrCreateGuestForBooking`, `FindByID`, `Update`, `List`,
* the transaction orchestrator `pgxTxManager.ExecTx`
  (`internal/infra/database/tx_manager.go`),
* the patient lifecycle service in both of its variants present in the
  repository: `src/internal/modules/patient/service.go` (plain, no
  transaction wrapper) and `src/unnamed/part_001` (transactional variant).

The database is modelled as the list of rows of the `profiles` table, in
insertion order.  SQL statements are translated according to PostgreSQL
semantics; where a semantic rule of PostgreSQL is load-bearing it is
stated in a comment next to the definition that uses it.
-/

/-! ## Identifiers and basic values -/

/-- UUIDs (google/uuid, gofrs/uuid) are opaque identifiers; only equality
is used by the code under study. -/
abbrev UUID := Nat

/-! ## Profile data model

`internal/modules/patient/model/profile.go`:

    type ProfileStatus string
    const (
        ProfileStatusGuest      ProfileStatus = "GUEST"
        ProfileStatusRegistered ProfileStatus = "REGISTERED"
        ProfileStatusArchived   ProfileStatus = "ARCHIVED"
    )
-/

/-- Lifecycle status of a profile (`model.ProfileStatus`). -/
inductive ProfileStatus
  | guest
  | registered
  | archived
deriving DecidableEq, Repr

/-- One row of the `profiles` table (`model.Profile`).  Timestamps and
dates are abstracted to natural numbers; the raw JSONB `extended_data`
payload is kept as a string.  Optional (nullable / pointer) columns are
`Option`s. -/
structure Profile where
  id : UUID
  clinicId : UUID
  fullName : String
  phoneNumber : Option String
  email : Option String
  nationalId : Option String
  dateOfBirth : Option Nat
  profileStatus : ProfileStatus
  extendedData : String
  createdAt : Nat
  updatedAt : Nat
  deletedAt : Option Nat
deriving DecidableEq, Repr

/-- The `profiles` table: its rows in insertion order. -/
abbrev DB := List Profile

/-! ## Errors

`pkg/apierror/apierror.go` defines `APIError` with a status code, a public
message and a wrapped internal error; `fmt.Errorf("...: %w", err)` wraps
an error with a message; `pgx.ErrNoRows` is the sentinel returned by
`QueryRow(...).Scan` when the query yields no row.  `noErr` plays the role
of Go's `nil` error inside an `APIError`. -/
inductive AppErr
  | noErr
  | errNoRows
  | base (msg : String)
  | api (statusCode : Nat) (publicMessage : String) (internalError : AppErr)
  | wrap (msg : String) (cause : AppErr)
deriving DecidableEq, Repr

/-- `apierror.NewBadRequest(message, internalErr)` (HTTP 400); an empty
message is replaced by a default. -/
def newBadRequest (message : String) (internalErr : AppErr) : AppErr :=
  AppErr.api 400
    (if message = "" then "The request was invalid or cannot be otherwise served."
     else message)
    internalErr

/-- `apierror.NewNotFound(resource, internalErr)` (HTTP 404). -/
def newNotFound (resource : String) (internalErr : AppErr) : AppErr :=
  AppErr.api 404
    ("The requested resource " ++ resource ++ " was not found.") internalErr

/-- `apierror.NewInternalServer(internalErr)` (HTTP 500); the public
message is always generic. -/
def newInternalServer (internalErr : AppErr) : AppErr :=
  AppErr.api 500 "An unexpected error occurred on the server." internalErr

/-- Whether an error is an `apierror` not-found (HTTP 404). -/
def AppErr.isNotFound : AppErr → Bool
  | AppErr.api 404 _ _ => true
  | _ => false

/-! ## Profile repository (`src/unnamed/part_000`, package `store`) -/

/-- Row predicate of the partial unique index
`idx_profiles_unique_active_phone_per_clinic ON profiles
(clinic_id, phone_number) WHERE phone_number IS NOT NULL AND deleted_at
IS NULL` (migration `000002`), instantiated at a given clinic and phone:
the row is non-deleted and carries exactly this (clinic_id, phone_number)
pair.  The same predicate is the WHERE clause of the repository's
`SELECT ... WHERE clinic_id = $1 AND phone_number = $3 AND deleted_at IS
NULL`. -/
def isActiveFor (clinicId : UUID) (phone : String) (p : Profile) : Bool :=
  p.clinicId = clinicId && p.phoneNumber = some phone && p.deletedAt = none

/-- The fresh `GUEST` row built by the `INSERT` arm of the Smart Upsert:
`INSERT INTO profiles (id, clinic_id, full_name, phone_number,
profile_status) VALUES (uuid_generate_v7(), $1, $2, $3, 'GUEST')`.
`newId` stands for the value produced by `uuid_generate_v7()` and `now`
for the `NOW()` column defaults of `created_at` / `updated_at`; the other
columns take their table defaults (NULL, `(empty JSON object)` for
`extended_data`). -/
def freshGuestRow (newId : UUID) (now : Nat) (clinicId : UUID)
    (fullName phone : String) : Profile :=
  { id := newId
    clinicId := clinicId
    fullName := fullName
    phoneNumber := some phone
    email := none
    nationalId := none
    dateOfBirth := none
    profileStatus := ProfileStatus.guest
    extendedData := "\x7b\x7d"
    createdAt := now
    updatedAt := now
    deletedAt := none }

/-- `pgxProfileRepository.FindOrCreateGuestForBooking` (the "Smart
Upsert", `src/unnamed/part_000`).  The single SQL statement is

    WITH inserted AS (
        INSERT INTO profiles (id, clinic_id, full_name, phone_number, profile_status)
        VALUES (uuid_generate_v7(), $1, $2, $3, 'GUEST')
        ON CONFLICT (clinic_id, phone_number) DO NOTHING
        RETURNING *
    )
    SELECT ... FROM profiles
    WHERE clinic_id = $1 AND phone_number = $3 AND deleted_at IS NULL

Translation notes, per PostgreSQL semantics:
* the `INSERT ... ON CONFLICT DO NOTHING` arm is discarded exactly when
  an active row with the same (clinic_id, phone_number) already exists
  (the unique index over non-deleted rows),
* a data-modifying CTE is always executed to completion, so the insert
  takes effect on the table whether or not the main query reads it,
* all sub-statements of a `WITH` run against the same snapshot: the main
  `SELECT` reads `FROM profiles` (it never references `inserted`), so it
  sees the table as it was before the statement and cannot see the row
  the CTE inserts (PostgreSQL manual, "Data-Modifying Statements in
  WITH").
The Go wrapper scans the first returned row; on `pgx.ErrNoRows` it
returns `apierror.NewInternalServer` (see the comment in the source:
"This case should be practically impossible ... but is included for
safety").  The returned pair is (result handed to the caller, table
state after the statement).

This definition reads the conflict target `(clinic_id, phone_number)`
as referring to the uniqueness of that pair among active rows — the
reading under which the statement executes at all, and the one assumed
by the function's own comment.  Whether PostgreSQL accepts that
conflict target depends on which unique constraint the deployed schema
offers as arbiter; `findOrCreateGuestAgainstMigration` below models the
execution against the partial index that the cited migration `000002`
actually creates, where arbiter inference fails and the whole statement
is rejected, reaching the wrapper's generic (non-`ErrNoRows`)
query-error branch, which this definition accordingly does not
model. -/
def findOrCreateGuestForBooking (db : DB) (newId : UUID) (now : Nat)
    (clinicId : UUID) (fullName phone : String) :
    Except AppErr Profile × DB :=
  let conflict := db.any (isActiveFor clinicId phone)
  let newRow := freshGuestRow newId now clinicId fullName phone
  let dbAfter := if conflict then db else db ++ [newRow]
  match db.filter (isActiveFor clinicId phone) with
  | [] =>
      (Except.error (newInternalServer (AppErr.wrap
        "failed to find or create guest profile, though this should not happen"
        AppErr.errNoRows)), dbAfter)
  | p :: _ => (Except.ok p, dbAfter)

/-- `FindOrCreateGuestForBooking` as executed against the schema that
the cited migration `000002_create_iam_schema.up.sql` actually creates.
There the only unique indexes on the conflict columns are PARTIAL —
`idx_profiles_unique_active_phone_per_clinic ON profiles (clinic_id,
phone_number) WHERE phone_number IS NOT NULL AND deleted_at IS NULL`
(the non-partial table constraints at migration lines 46-47 are
commented out).  PostgreSQL infers a partial unique index as an
`ON CONFLICT` arbiter only when the conflict target carries an index
predicate implying the index's one; the statement's
`ON CONFLICT (clinic_id, phone_number)` carries no predicate, so
planning fails with SQLSTATE 42P10 ("there is no unique or exclusion
constraint matching the ON CONFLICT specification").  The statement is
rejected as a whole: nothing is inserted, the table is unchanged, and
the Go wrapper takes its generic error branch
`fmt.Errorf("store.FindOrCreateGuest: failed to execute query: %w",
err)` on every call, regardless of the arguments. -/
def findOrCreateGuestAgainstMigration (db : DB) (clinicId : UUID)
    (fullName phone : String) : Except AppErr Profile × DB :=
  (Except.error (AppErr.wrap
    "store.FindOrCreateGuest: failed to execute query"
    (AppErr.base
      "ERROR: there is no unique or exclusion constraint matching the ON CONFLICT specification (SQLSTATE 42P10)")),
   db)

/-- `pgxProfileRepository.FindByID`: `SELECT ... FROM profiles WHERE
clinic_id = $1 AND id = $2 AND deleted_at IS NULL`; zero rows scan to
`pgx.ErrNoRows`, mapped to `apierror.NewNotFound("profile", err)`. -/
def findByID (db : DB) (clinicId profileId : UUID) : Except AppErr Profile :=
  match db.filter (fun p =>
      p.clinicId = clinicId && p.id = profileId && p.deletedAt = none) with
  | [] => Except.error (newNotFound "profile" AppErr.errNoRows)
  | p :: _ => Except.ok p

/-- Column changes of `pgxProfileRepository.Update`: `UPDATE profiles SET
full_name = $1, phone_number = $2, email = $3, national_id = $4,
date_of_birth = $5, profile_status = $6, extended_data = $7` applied to a
matched row `r` with the argument profile `q`.  (`created_at` and the
primary key are untouched; the `set_timestamp` trigger on `updated_at`
is not load-bearing for any claim and is left out.) -/
def applyUpdateColumns (q r : Profile) : Profile :=
  { r with
    fullName := q.fullName
    phoneNumber := q.phoneNumber
    email := q.email
    nationalId := q.nationalId
    dateOfBirth := q.dateOfBirth
    profileStatus := q.profileStatus
    extendedData := q.extendedData }

/-- `pgxProfileRepository.Update`: the `UPDATE` is keyed by
`WHERE id = $8 AND clinic_id = $9`; when `cmdTag.RowsAffected() == 0`
the repository returns `apierror.NewNotFound("profile", nil)`, otherwise
`nil`.  Returns (result, table state after the statement). -/
def updateProfile (db : DB) (q : Profile) : Except AppErr Unit × DB :=
  let keyMatch := fun r : Profile => r.id = q.id && r.clinicId = q.clinicId
  let affected := db.countP keyMatch
  let dbAfter := db.map (fun r => if keyMatch r then applyUpdateColumns q r else r)
  if affected = 0 then (Except.error (newNotFound "profile" AppErr.noErr), dbAfter)
  else (Except.ok (), dbAfter)

/-- One step of the `ORDER BY created_at DESC` sort: insert a row into a
list already sorted by descending `created_at`, after the rows whose
`created_at` is at least as large. -/
def insertByCreatedDesc (p : Profile) : List Profile → List Profile
  | [] => [p]
  | q :: qs =>
      if p.createdAt ≤ q.createdAt then q :: insertByCreatedDesc p qs
      else p :: q :: qs

/-- `ORDER BY created_at DESC` as an insertion sort on the descending
`created_at` key.  SQL leaves the relative order of rows with equal
`created_at` unspecified, so any order consistent with the key is a
faithful reading. -/
def sortByCreatedDesc : List Profile → List Profile
  | [] => []
  | p :: ps => insertByCreatedDesc p (sortByCreatedDesc ps)

/-- `pgxProfileRepository.List`: `SELECT ... FROM profiles WHERE
clinic_id = $1 AND deleted_at IS NULL ORDER BY created_at DESC LIMIT $2
OFFSET $3`. -/
def listRepo (db : DB) (clinicId : UUID) (offset limit : Nat) : List Profile :=
  ((sortByCreatedDesc (db.filter
      (fun p => p.clinicId = clinicId && p.deletedAt = none))).drop offset).take
    limit

/-- Wrapping two's-complement arithmetic of a Go `int` (int64 on a
64-bit platform): reduce an unbounded integer to its representative in
[-2 ^ 63, 2 ^ 63). -/
def wrap64 (x : Int) : Int := (x + 2 ^ 63) % 2 ^ 64 - 2 ^ 63

/-- `pgxProfileRepository.List` with its Go signature
`(offset, limit int)`: the `int` values are bound to `LIMIT $2 OFFSET
$3` as such, and PostgreSQL rejects a negative `OFFSET` (SQLSTATE
2201X) or a negative `LIMIT` (SQLSTATE 2201W) at execution; the Go
wrapper then returns `fmt.Errorf("store.List: failed to query profiles:
%w", err)`.  For non-negative values the query is `listRepo`. -/
def listRepoGo (db : DB) (clinicId : UUID) (offset limit : Int) :
    Except AppErr (List Profile) :=
  if offset < 0 then
    Except.error (AppErr.wrap "store.List: failed to query profiles"
      (AppErr.base "ERROR: OFFSET must not be negative (SQLSTATE 2201X)"))
  else if limit < 0 then
    Except.error (AppErr.wrap "store.List: failed to query profiles"
      (AppErr.base "ERROR: LIMIT must not be negative (SQLSTATE 2201W)"))
  else Except.ok (listRepo db clinicId offset.toNat limit.toNat)

deriving instance DecidableEq for Except

/-! ## Patient service requests (`src/unnamed/part_002`, package `patient`)

Both request types satisfy the `ProfileUpdater` interface through their
getters `GetFullName`, `GetEmail`, `GetNationalID`, `GetDateOfBirth`; the
embedding passes the four getter values directly. -/

/-- `patient.RegisterPatientRequest`. -/
structure RegisterPatientRequest where
  clinicId : UUID
  fullName : String
  phoneNumber : String
  email : Option String
  nationalId : Option String
  dateOfBirth : Option Nat
deriving DecidableEq, Repr

/-- `patient.CompleteGuestRequest`. -/
structure CompleteGuestRequest where
  clinicId : UUID
  profileId : UUID
  fullName : String
  email : Option String
  nationalId : Option String
  dateOfBirth : Option Nat
deriving DecidableEq, Repr

/-! ## Patient service, plain variant
(`src/internal/modules/patient/service.go`)

This variant calls the repository directly on the pool; there is no
transaction wrapper, so a repository statement that ran keeps its effect
on the table even when the service then returns an error. -/

/-- `defaultService.upsertProfile` (plain variant): copies the four
`ProfileUpdater` fields into the profile and persists it via
`repo.Update`; an update failure is wrapped as
`apierror.NewInternalServer(fmt.Errorf("failed to update profile: %w",
err))`. -/
def upsertProfile (db : DB) (profile : Profile)
    (reqFullName : String) (reqEmail reqNationalId : Option String)
    (reqDateOfBirth : Option Nat) : Except AppErr Profile × DB :=
  let updated := { profile with
    fullName := reqFullName
    email := reqEmail
    nationalId := reqNationalId
    dateOfBirth := reqDateOfBirth }
  match updateProfile db updated with
  | (Except.error e, dbAfter) =>
      (Except.error (newInternalServer (AppErr.wrap "failed to update profile" e)),
       dbAfter)
  | (Except.ok _, dbAfter) => (Except.ok updated, dbAfter)

/-- `defaultService.CompleteGuestRegistration` (plain variant,
`service.go`): fetch by (clinic, id); a `GUEST` profile becomes
`REGISTERED` (any other status is left as it is); then
`upsertProfile`. -/
def completeGuestRegistration (db : DB) (req : CompleteGuestRequest) :
    Except AppErr Profile × DB :=
  match findByID db req.clinicId req.profileId with
  | Except.error e => (Except.error e, db)
  | Except.ok profile =>
      let profile :=
        if profile.profileStatus = ProfileStatus.guest then
          { profile with profileStatus := ProfileStatus.registered }
        else profile
      upsertProfile db profile req.fullName req.email req.nationalId
        req.dateOfBirth

/-- `defaultService.RegisterNewPatient` (plain variant, `service.go`):
run the Smart Upsert for (clinic, phone); reject with a bad-request
conflict when the profile is already `REGISTERED`; otherwise set the
status to `REGISTERED` and `upsertProfile`. -/
def registerNewPatient (db : DB) (newId : UUID) (now : Nat)
    (req : RegisterPatientRequest) : Except AppErr Profile × DB :=
  match findOrCreateGuestForBooking db newId now req.clinicId req.fullName
      req.phoneNumber with
  | (Except.error e, dbAfter) =>
      (Except.error (newInternalServer (AppErr.wrap
        "failed during initial profile creation" e)), dbAfter)
  | (Except.ok profile, dbAfter) =>
      if profile.profileStatus = ProfileStatus.registered then
        (Except.error (newBadRequest
          "A registered patient with this phone number already exists."
          AppErr.noErr), dbAfter)
      else
        upsertProfile dbAfter
          { profile with profileStatus := ProfileStatus.registered }
          req.fullName req.email req.nationalId req.dateOfBirth

/-- `defaultService.ListProfiles` (identical in both service variants):
clamp `page` to 1 when `page < 1`, reset `pageSize` to 25 when it is
outside [1, 100], then call `repo.List(clinic, offset, pageSize)` with
`offset := (page - 1) * pageSize`.  `page` and `pageSize` are Go
`int`s: arbitrary values of the 64-bit range, on which `-` and `*` are
wrapping two's-complement operations (`wrap64`), so the computed offset
can wrap around to a negative value that the database then rejects
(`listRepoGo`); the comparisons of the clamping step do not wrap. -/
def listProfiles (db : DB) (clinicId : UUID) (page pageSize : Int) :
    Except AppErr (List Profile) :=
  let page := if page < 1 then 1 else page
  let pageSize := if pageSize < 1 || pageSize > 100 then 25 else pageSize
  let offset := wrap64 (wrap64 (page - 1) * pageSize)
  listRepoGo db clinicId offset pageSize

/-! ## Patient service, transactional variant (`src/unnamed/part_001`)

This variant wraps each operation in `s.RunInTransaction` (which forwards
to `pgxTxManager.ExecTx`): an error returned by the closure rolls the
transaction back, so the table is left unchanged; a panic raised inside
the closure is recovered by `ExecTx`'s deferred guard, the transaction is
rolled back, and the panic is re-raised to the service caller.

Both `RegisterNewPatient` and `CompleteGuestRegistration` of this variant
declare `var profile *model.Profile` (a nil pointer) and then read or
write through `profile` before it is ever assigned, which is a nil
pointer dereference — a runtime panic — on the paths marked below. -/

/-- Outcome of one transactional service call, together with the table
state after the transaction has been finalized (committed or rolled
back).  `panicked` is a nil-pointer-dereference runtime panic re-raised
by `ExecTx` after rollback. -/
inductive SvcOutcome
  | ok (p : Profile) (db : DB)
  | fail (e : AppErr) (db : DB)
  | panicked (db : DB)
deriving DecidableEq, Repr

/-- `defaultService.RegisterNewPatient` (transactional variant,
`src/unnamed/part_001`): inside the transaction it runs the Smart Upsert,
returns `fmt.Errorf("failed during profile lookup: %w", err)` on a lookup
error, rejects with `apierror.NewBadRequest` when the found profile is
already `REGISTERED`, and otherwise executes
`profile.ProfileStatus = model.ProfileStatusRegistered` — but the local
`profile` is still the nil pointer declared at the top of the method, so
this statement panics before `upsertProfile` can run; the transaction is
rolled back and the panic propagates. -/
def registerNewPatientTx (db : DB) (newId : UUID) (now : Nat)
    (clinicId : UUID) (req : RegisterPatientRequest) : SvcOutcome :=
  match findOrCreateGuestForBooking db newId now clinicId req.fullName
      req.phoneNumber with
  | (Except.error e, _) =>
      SvcOutcome.fail (AppErr.wrap "failed during profile lookup" e) db
  | (Except.ok existing, _) =>
      if existing.profileStatus = ProfileStatus.registered then
        SvcOutcome.fail (newBadRequest
          "A registered patient with this phone number already exists."
          AppErr.noErr) db
      else
        SvcOutcome.panicked db

/-- `defaultService.CompleteGuestRegistration` (transactional variant,
`src/unnamed/part_001`): inside the transaction it fetches the profile by
(clinic, id) — through the pool handle `s.db`, not the transaction — and
then evaluates `if profile.ProfileStatus == model.ProfileStatusGuest`,
again on the nil local `profile` instead of the fetched `existing`, so
every call that finds the profile panics; the transaction is rolled back
and the panic propagates. -/
def completeGuestRegistrationTx (db : DB) (req : CompleteGuestRequest) :
    SvcOutcome :=
  match findByID db req.clinicId req.profileId with
  | Except.error e => SvcOutcome.fail e db
  | Except.ok _existing => SvcOutcome.panicked db

/-! ## Transaction orchestrator
(`src/internal/infra/database/tx_manager.go`)

`pgxTxManager.ExecTx` is modelled as a function of the outcomes of its
fallible collaborators (`pool.Begin`, `middleware.GetAuthPayload`, the
`SET LOCAL` statement, `tx.Commit`, `tx.Rollback`) and of the outcome of
the business function `fn`.  `json.Marshal` of the two-string
`auditContextPayload` cannot fail and is modelled as always
succeeding. -/

/-- `security.AuthPayload` as read by `middleware.GetAuthPayload`: the
acting user and clinic. -/
structure AuthPayload where
  userId : UUID
  clinicId : UUID
deriving DecidableEq, Repr

/-- Outcomes of the collaborators of one `ExecTx` invocation.  A `none`
error field means the corresponding call succeeds.  `rollbackErr` is
whatever `tx.Rollback` would return; `ExecTx` is expected to discard
it. -/
structure TxEnv where
  beginErr : Option AppErr
  auth : Option AuthPayload
  setAuditErr : Option AppErr
  commitErr : Option AppErr
  rollbackErr : Option AppErr
deriving DecidableEq, Repr

/-- Outcome of the business function `fn` passed to `ExecTx`: normal
success, an error return, or a panic carrying a value. -/
inductive FnOutcome
  | ok
  | fail (e : AppErr)
  | panics (v : String)
deriving DecidableEq, Repr

/-- How one `ExecTx` invocation ends: a normal return (with the returned
`error`, `none` for Go's `nil`) or a re-raised panic. -/
inductive ExecExit
  | ret (e : Option AppErr)
  | panicked (v : String)
deriving DecidableEq, Repr

/-- Observable trace of one `ExecTx` invocation: how it ended, whether
the business function was started, whether `tx.Commit` succeeded,
whether `tx.Rollback` was invoked (the deferred guard calls it on every
exit after `Begin` succeeded, also after a commit, where it is the
tolerated `pgx.ErrTxClosed` no-op), whether the `SET LOCAL
app.audit_context` statement was executed successfully, and whether the
trace-level "executing transaction without user context" log was
emitted. -/
structure ExecTrace where
  exit : ExecExit
  fnRan : Bool
  committed : Bool
  rollbackAttempted : Bool
  auditSet : Bool
  tracedNoAuth : Bool
deriving DecidableEq, Repr

/-- `pgxTxManager.ExecTx`, straight-line translation:
1. `pool.Begin`; on failure return
   `fmt.Errorf("tx_manager: failed to begin transaction: %w", err)` (no
   transaction exists, the deferred guard is not yet registered);
2. deferred guard (applies to every exit below): on panic, call
   `tx.Rollback` and re-raise the same panic value; otherwise blindly
   call `tx.Rollback` and discard its error;
3. audit-context injection: when `middleware.GetAuthPayload` yields a
   payload, run `SET LOCAL app.audit_context = $1`; on failure return
   the wrapped audit error without executing `fn`; when no payload is
   present, emit a trace-level log and continue;
4. run `fn`; an error is returned unchanged;
5. `tx.Commit`; on failure return
   `fmt.Errorf("tx_manager: failed to commit transaction: %w", err)`;
   otherwise return `nil`. -/
def execTx (env : TxEnv) (fn : FnOutcome) : ExecTrace :=
  match env.beginErr with
  | some e =>
      { exit := ExecExit.ret (some (AppErr.wrap
          "tx_manager: failed to begin transaction" e))
        fnRan := false, committed := false, rollbackAttempted := false
        auditSet := false, tracedNoAuth := false }
  | none =>
      let traced := env.auth.isNone
      let auditFail : Option AppErr :=
        match env.auth with
        | some _ => env.setAuditErr
        | none => none
      match auditFail with
      | some e =>
          { exit := ExecExit.ret (some (AppErr.wrap
              "tx_manager: failed to set audit context (audit log integrity risk)" e))
            fnRan := false, committed := false, rollbackAttempted := true
            auditSet := false, tracedNoAuth := traced }
      | none =>
          let auditSet := env.auth.isSome
          match fn with
          | FnOutcome.panics v =>
              { exit := ExecExit.panicked v
                fnRan := true, committed := false, rollbackAttempted := true
                auditSet := auditSet, tracedNoAuth := traced }
          | FnOutcome.fail e =>
              { exit := ExecExit.ret (some e)
                fnRan := true, committed := false, rollbackAttempted := true
                auditSet := auditSet, tracedNoAuth := traced }
          | FnOutcome.ok =>
              match env.commitErr with
              | some c =>
                  { exit := ExecExit.ret (some (AppErr.wrap
                      "tx_manager: failed to commit transaction" c))
                    fnRan := true, committed := false
                    rollbackAttempted := true
                    auditSet := auditSet, tracedNoAuth := traced }
              | none =>
                  { exit := ExecExit.ret none
                    fnRan := true, committed := true
                    rollbackAttempted := true
                    auditSet := auditSet, tracedNoAuth := traced }

/-! ## Theorems -/

/-- C2: Orchestrator error propagation.  With `Begin` succeeding and the
audit step not failing (which is when the business function runs at
all): if the business function returns an error `e`, `ExecTx` returns
exactly `e`, unwrapped and unmodified, the transaction is rolled back
and not committed; if the function succeeds and `Commit` fails with `c`,
`ExecTx` returns the commit error wrapped with the describing message;
if both succeed, `ExecTx` returns `nil`. -/
theorem execTx_error_propagation (env : TxEnv) (e c : AppErr)
    (hb : env.beginErr = none)
    (ha : env.auth.isSome = true → env.setAuditErr = none) :
    (execTx env (FnOutcome.fail e)).exit = ExecExit.ret (some e)
    ∧ (execTx env (FnOutcome.fail e)).committed = false
    ∧ (execTx env (FnOutcome.fail e)).rollbackAttempted = true
    ∧ (env.commitErr = some c →
        (execTx env FnOutcome.ok).exit = ExecExit.ret (some (AppErr.wrap
          "tx_manager: failed to commit transaction" c)))
    ∧ (env.commitErr = none →
        (execTx env FnOutcome.ok).exit = ExecExit.ret none
        ∧ (execTx env FnOutcome.ok).committed = true) := by
  rcases env with ⟨b, a, s, cE, rr⟩
  simp only at hb ha
  subst hb
  have hs : a.isSome = true → s = none := ha
  cases a with
  | none =>
      cases cE with
      | none =>
          exact ⟨rfl, rfl, rfl, fun hc => absurd hc (by simp),
            fun _ => ⟨rfl, rfl⟩⟩
      | some x =>
          refine ⟨rfl, rfl, rfl, fun hc => ?_, fun hc => absurd hc (by simp)⟩
          obtain rfl : x = c := Option.some.inj hc
          rfl
  | some p =>
      obtain rfl : s = none := hs rfl
      cases cE with
      | none =>
          exact ⟨rfl, rfl, rfl, fun hc => absurd hc (by simp),
            fun _ => ⟨rfl, rfl⟩⟩
      | some x =>
          refine ⟨rfl, rfl, rfl, fun hc => ?_, fun hc => absurd hc (by simp)⟩
          obtain rfl : x = c := Option.some.inj hc
          rfl

/-- Witness for `execTx_error_propagation` at a concrete environment. -/
theorem execTx_error_propagation_witness :
    ((⟨none, none, none, none, none⟩ : TxEnv).beginErr = none
      ∧ ((⟨none, none, none, none, none⟩ : TxEnv).auth.isSome = true →
          (⟨none, none, none, none, none⟩ : TxEnv).setAuditErr = none))
    ∧ ((execTx ⟨none, none, none, none, none⟩
          (FnOutcome.fail (AppErr.base "boom"))).exit
        = ExecExit.ret (some (AppErr.base "boom"))
      ∧ (execTx ⟨none, none, none, none, none⟩
          (FnOutcome.fail (AppErr.base "boom"))).committed = false
      ∧ (execTx ⟨none, none, none, none, none⟩
          (FnOutcome.fail (AppErr.base "boom"))).rollbackAttempted = true
      ∧ ((⟨none, none, none, none, none⟩ : TxEnv).commitErr
            = some (AppErr.base "cfail") →
          (execTx ⟨none, none, none, none, none⟩ FnOutcome.ok).exit
            = ExecExit.ret (some (AppErr.wrap
                "tx_manager: failed to commit transaction" (AppErr.base "cfail"))))
      ∧ ((⟨none, none, none, none, none⟩ : TxEnv).commitErr = none →
          (execTx ⟨none, none, none, none, none⟩ FnOutcome.ok).exit
            = ExecExit.ret none
          ∧ (execTx ⟨none, none, none, none, none⟩ FnOutcome.ok).committed
            = true)) :=
  ⟨⟨rfl, by decide⟩,
   execTx_error_propagation ⟨none, none, none, none, none⟩
     (AppErr.base "boom") (AppErr.base "cfail") rfl (by decide)⟩

/-- C3: Panic safety of the Orchestrator.  With `Begin` succeeding and
the audit step not failing: when the business function panics with `v`,
`ExecTx` attempts a rollback, never commits, and re-raises the same
panic value; on every exit (panic or not) a rollback is attempted; and
the error that `tx.Rollback` itself would return is discarded — changing
it never changes the result of `ExecTx`. -/
theorem execTx_panic_safety (env : TxEnv) (fn : FnOutcome) (v : String)
    (r : Option AppErr)
    (hb : env.beginErr = none)
    (ha : env.auth.isSome = true → env.setAuditErr = none) :
    (execTx env (FnOutcome.panics v)).exit = ExecExit.panicked v
    ∧ (execTx env (FnOutcome.panics v)).rollbackAttempted = true
    ∧ (execTx env (FnOutcome.panics v)).committed = false
    ∧ (execTx env fn).rollbackAttempted = true
    ∧ execTx { env with rollbackErr := r } fn = execTx env fn := by
  rcases env with ⟨b, a, s, cE, rr⟩
  simp only at hb ha
  subst hb
  have hindep : execTx ⟨none, a, s, cE, r⟩ fn = execTx ⟨none, a, s, cE, rr⟩ fn := by
    cases a <;> cases s <;> cases fn <;> cases cE <;> rfl
  cases a with
  | none =>
      exact ⟨rfl, rfl, rfl, by cases fn <;> cases cE <;> rfl, hindep⟩
  | some p =>
      have hs : s = none := ha rfl
      subst hs
      exact ⟨rfl, rfl, rfl, by cases fn <;> cases cE <;> rfl, hindep⟩

/-- Witness for `execTx_panic_safety` at a concrete environment. -/
theorem execTx_panic_safety_witness :
    ((⟨none, none, none, none, none⟩ : TxEnv).beginErr = none
      ∧ ((⟨none, none, none, none, none⟩ : TxEnv).auth.isSome = true →
          (⟨none, none, none, none, none⟩ : TxEnv).setAuditErr = none))
    ∧ ((execTx ⟨none, none, none, none, none⟩
          (FnOutcome.panics "boom")).exit = ExecExit.panicked "boom"
      ∧ (execTx ⟨none, none, none, none, none⟩
          (FnOutcome.panics "boom")).rollbackAttempted = true
      ∧ (execTx ⟨none, none, none, none, none⟩
          (FnOutcome.panics "boom")).committed = false
      ∧ (execTx ⟨none, none, none, none, none⟩ FnOutcome.ok).rollbackAttempted
          = true
      ∧ execTx { (⟨none, none, none, none, none⟩ : TxEnv) with
            rollbackErr := some (AppErr.base "rbfail") } FnOutcome.ok
          = execTx ⟨none, none, none, none, none⟩ FnOutcome.ok) :=
  ⟨⟨rfl, by decide⟩,
   execTx_panic_safety ⟨none, none, none, none, none⟩ FnOutcome.ok "boom"
     (some (AppErr.base "rbfail")) rfl (by decide)⟩

/-- C7: Audit attribution strictness.  With `Begin` succeeding: when an
auth payload is present and the transaction-local `SET LOCAL
app.audit_context` statement fails, `ExecTx` returns the wrapped audit
error without ever executing the business function, the transaction is
rolled back and not committed, and no trace log is emitted; when no auth
payload is present, the business function is executed and the
trace-level log is emitted. -/
theorem execTx_audit_attribution_strictness (env : TxEnv) (fn : FnOutcome)
    (p : AuthPayload) (e : AppErr) (hb : env.beginErr = none) :
    (env.auth = some p → env.setAuditErr = some e →
      execTx env fn
        = { exit := ExecExit.ret (some (AppErr.wrap
              "tx_manager: failed to set audit context (audit log integrity risk)" e))
            fnRan := false, committed := false, rollbackAttempted := true
            auditSet := false, tracedNoAuth := false })
    ∧ (env.auth = none →
        (execTx env fn).fnRan = true
        ∧ (execTx env fn).tracedNoAuth = true) := by
  rcases env with ⟨b, a, s, cE, rr⟩
  simp only at hb
  subst hb
  constructor
  · intro hauth hs
    simp only at hauth hs
    subst hauth
    subst hs
    rfl
  · intro hauth
    simp only at hauth
    subst hauth
    exact ⟨by cases fn <;> cases cE <;> rfl, by cases fn <;> cases cE <;> rfl⟩

/-- Witness for `execTx_audit_attribution_strictness` at a concrete
environment whose audit statement fails. -/
theorem execTx_audit_attribution_strictness_witness :
    ((⟨none, some ⟨3, 4⟩, some (AppErr.base "sql"), none, none⟩ : TxEnv).beginErr
        = none)
    ∧ (((⟨none, some ⟨3, 4⟩, some (AppErr.base "sql"), none, none⟩ : TxEnv).auth
          = some ⟨3, 4⟩ →
        (⟨none, some ⟨3, 4⟩, some (AppErr.base "sql"), none, none⟩ : TxEnv).setAuditErr
          = some (AppErr.base "sql") →
        execTx ⟨none, some ⟨3, 4⟩, some (AppErr.base "sql"), none, none⟩
            FnOutcome.ok
          = { exit := ExecExit.ret (some (AppErr.wrap
                "tx_manager: failed to set audit context (audit log integrity risk)"
                (AppErr.base "sql")))
              fnRan := false, committed := false, rollbackAttempted := true
              auditSet := false, tracedNoAuth := false })
      ∧ ((⟨none, some ⟨3, 4⟩, some (AppErr.base "sql"), none, none⟩ : TxEnv).auth
            = none →
          (execTx ⟨none, some ⟨3, 4⟩, some (AppErr.base "sql"), none, none⟩
              FnOutcome.ok).fnRan = true
          ∧ (execTx ⟨none, some ⟨3, 4⟩, some (AppErr.base "sql"), none, none⟩
              FnOutcome.ok).tracedNoAuth = true)) :=
  ⟨rfl,
   execTx_audit_attribution_strictness
     ⟨none, some ⟨3, 4⟩, some (AppErr.base "sql"), none, none⟩
     FnOutcome.ok ⟨3, 4⟩ (AppErr.base "sql") rfl⟩

/-! ### List helper lemmas for the repository model -/

/-- Membership is preserved by one insertion step of the
`created_at DESC` sort. -/
theorem mem_insertByCreatedDesc {a p : Profile} {l : List Profile} :
    a ∈ insertByCreatedDesc p l ↔ a = p ∨ a ∈ l := by
  induction l with
  | nil => simp [insertByCreatedDesc]
  | cons q qs ih =>
      simp only [insertByCreatedDesc]
      by_cases h : p.createdAt ≤ q.createdAt
      · simp only [h, if_true, List.mem_cons, ih]
        tauto
      · simp only [h, if_false, List.mem_cons]

/-- The `created_at DESC` sort is a permutation as far as membership is
concerned. -/
theorem mem_sortByCreatedDesc {a : Profile} {l : List Profile} :
    a ∈ sortByCreatedDesc l ↔ a ∈ l := by
  induction l with
  | nil => simp [sortByCreatedDesc]
  | cons q qs ih => simp [sortByCreatedDesc, mem_insertByCreatedDesc, ih]

/-- Every row produced by `pgxProfileRepository.List` satisfies the WHERE
clause of its query: it belongs to the queried clinic and is not
soft-deleted. -/
theorem mem_listRepo_scope {p : Profile} {db : DB} {c : UUID}
    {offset limit : Nat} (h : p ∈ listRepo db c offset limit) :
    p.clinicId = c ∧ p.deletedAt = none := by
  have h1 : p ∈ sortByCreatedDesc
      (db.filter (fun q => q.clinicId = c && q.deletedAt = none)) :=
    List.mem_of_mem_drop (List.mem_of_mem_take h)
  have h2 := mem_sortByCreatedDesc.mp h1
  have h3 := List.of_mem_filter h2
  simpa using h3

/-- An `Except.ok` result of the Smart Upsert is a row of the queried
table satisfying the WHERE clause of the statement's SELECT. -/
theorem smartUpsert_ok_scope {db : DB} {newId : UUID} {now : Nat}
    {B : UUID} {name phone : String} {p : Profile}
    (h : (findOrCreateGuestForBooking db newId now B name phone).fst
      = Except.ok p) :
    p.clinicId = B ∧ p.phoneNumber = some phone ∧ p.deletedAt = none := by
  cases hf : db.filter (isActiveFor B phone) with
  | nil => simp [findOrCreateGuestForBooking, hf] at h
  | cons q rest =>
      simp only [findOrCreateGuestForBooking, hf] at h
      have hq : q ∈ db.filter (isActiveFor B phone) := by
        rw [hf]; exact List.mem_cons_self _ _
      have hact := List.of_mem_filter hq
      obtain rfl : q = p := by simpa using h
      have hact2 : (q.clinicId = B ∧ q.phoneNumber = some phone)
          ∧ q.deletedAt = none := by simpa [isActiveFor] using hact
      exact ⟨hact2.1.1, hact2.1.2, hact2.2⟩

/-- An `Except.ok` result of `FindByID` is a row of the queried table
satisfying the WHERE clause of its query. -/
theorem findByID_ok_scope {db : DB} {B pid : UUID} {p : Profile}
    (h : findByID db B pid = Except.ok p) :
    p.clinicId = B ∧ p.id = pid ∧ p.deletedAt = none := by
  cases hf : db.filter (fun r =>
      r.clinicId = B && r.id = pid && r.deletedAt = none) with
  | nil => simp [findByID, hf] at h
  | cons q rest =>
      simp only [findByID, hf] at h
      have hq : q ∈ db.filter (fun r =>
          r.clinicId = B && r.id = pid && r.deletedAt = none) := by
        rw [hf]; exact List.mem_cons_self _ _
      have hact := List.of_mem_filter hq
      obtain rfl : q = p := by simpa using h
      have hact2 : (q.clinicId = B ∧ q.id = pid) ∧ q.deletedAt = none := by
        simpa using hact
      exact ⟨hact2.1.1, hact2.1.2, hact2.2⟩

/-- C5: Upsert postcondition.  The Smart Upsert never returns an empty
result together with a `nil` error: the outcome is either a profile or
the internal-server failure built over `pgx.ErrNoRows`; in particular,
when the statement's SELECT yields no row, the operation returns the
internal-server failure; and no error it returns is ever a
not-found. -/
theorem smartUpsert_postcondition_never_empty (db : DB) (newId : UUID)
    (now : Nat) (clinicId : UUID) (fullName phone : String) :
    ((∃ p, (findOrCreateGuestForBooking db newId now clinicId fullName
        phone).fst = Except.ok p)
      ∨ (findOrCreateGuestForBooking db newId now clinicId fullName
          phone).fst
        = Except.error (newInternalServer (AppErr.wrap
            "failed to find or create guest profile, though this should not happen"
            AppErr.errNoRows)))
    ∧ (db.filter (isActiveFor clinicId phone) = [] →
        (findOrCreateGuestForBooking db newId now clinicId fullName
          phone).fst
          = Except.error (newInternalServer (AppErr.wrap
              "failed to find or create guest profile, though this should not happen"
              AppErr.errNoRows)))
    ∧ (∀ e, (findOrCreateGuestForBooking db newId now clinicId fullName
        phone).fst = Except.error e → e.isNotFound = false) := by
  cases hf : db.filter (isActiveFor clinicId phone) with
  | nil =>
      have hres : (findOrCreateGuestForBooking db newId now clinicId
          fullName phone).fst
          = Except.error (newInternalServer (AppErr.wrap
              "failed to find or create guest profile, though this should not happen"
              AppErr.errNoRows)) := by
        simp [findOrCreateGuestForBooking, hf]
      refine ⟨Or.inr hres, fun _ => hres, fun e he => ?_⟩
      rw [hres] at he
      obtain rfl : _ = e := Except.error.inj he
      rfl
  | cons q rest =>
      have hres : (findOrCreateGuestForBooking db newId now clinicId
          fullName phone).fst = Except.ok q := by
        simp [findOrCreateGuestForBooking, hf]
      refine ⟨Or.inl ⟨q, hres⟩, fun hnil => ?_, fun e he => ?_⟩
      · exact absurd hnil (List.cons_ne_nil q rest)
      · rw [hres] at he
        exact absurd he (by simp)

/-- Witness for `smartUpsert_postcondition_never_empty`: the theorem has
only universally quantified data arguments; instantiate it at an empty
table. -/
theorem smartUpsert_postcondition_never_empty_witness :
    ((∃ p, (findOrCreateGuestForBooking [] 1 0 7 "Amina"
        "+201234567890").fst = Except.ok p)
      ∨ (findOrCreateGuestForBooking [] 1 0 7 "Amina"
          "+201234567890").fst
        = Except.error (newInternalServer (AppErr.wrap
            "failed to find or create guest profile, though this should not happen"
            AppErr.errNoRows)))
    ∧ (List.filter (isActiveFor 7 "+201234567890") [] = [] →
        (findOrCreateGuestForBooking [] 1 0 7 "Amina"
          "+201234567890").fst
          = Except.error (newInternalServer (AppErr.wrap
              "failed to find or create guest profile, though this should not happen"
              AppErr.errNoRows)))
    ∧ (∀ e, (findOrCreateGuestForBooking [] 1 0 7 "Amina"
        "+201234567890").fst = Except.error e → e.isNotFound = false) :=
  smartUpsert_postcondition_never_empty [] 1 0 7 "Amina" "+201234567890"

/-- C9: Update contract.  `pgxProfileRepository.Update` issues an UPDATE
keyed by (id, clinic_id); it returns the not-found error exactly when
zero rows are affected, returns success when exactly one row is
affected, and a zero-row update is never surfaced as success. -/
theorem update_rows_affected_contract (db : DB) (q : Profile) :
    ((updateProfile db q).fst
        = Except.error (newNotFound "profile" AppErr.noErr)
      ↔ db.countP (fun r => r.id = q.id && r.clinicId = q.clinicId) = 0)
    ∧ (db.countP (fun r => r.id = q.id && r.clinicId = q.clinicId) = 1 →
        (updateProfile db q).fst = Except.ok ())
    ∧ ((updateProfile db q).fst = Except.ok () →
        db.countP (fun r => r.id = q.id && r.clinicId = q.clinicId) ≠ 0) := by
  by_cases h : db.countP (fun r => r.id = q.id && r.clinicId = q.clinicId) = 0
  · have hres : (updateProfile db q).fst
        = Except.error (newNotFound "profile" AppErr.noErr) := by
      simp [updateProfile, h]
    refine ⟨⟨fun _ => h, fun _ => hres⟩, fun h1 => ?_, fun hok => ?_⟩
    · omega
    · rw [hres] at hok
      exact absurd hok (by simp)
  · have hres : (updateProfile db q).fst = Except.ok () := by
      simp [updateProfile, h]
    refine ⟨⟨fun he => ?_, fun h0 => absurd h0 h⟩, fun _ => hres, fun _ => h⟩
    rw [hres] at he
    exact absurd he (by simp)

/-- Witness for `update_rows_affected_contract`: a one-row table whose
row matches the update key. -/
theorem update_rows_affected_contract_witness :
    ((updateProfile [freshGuestRow 5 0 7 "G" "+2010"]
        (freshGuestRow 5 0 7 "G2" "+2010")).fst
        = Except.error (newNotFound "profile" AppErr.noErr)
      ↔ List.countP
          (fun r => r.id = (freshGuestRow 5 0 7 "G2" "+2010").id
            && r.clinicId = (freshGuestRow 5 0 7 "G2" "+2010").clinicId)
          [freshGuestRow 5 0 7 "G" "+2010"] = 0)
    ∧ (List.countP
          (fun r => r.id = (freshGuestRow 5 0 7 "G2" "+2010").id
            && r.clinicId = (freshGuestRow 5 0 7 "G2" "+2010").clinicId)
          [freshGuestRow 5 0 7 "G" "+2010"] = 1 →
        (updateProfile [freshGuestRow 5 0 7 "G" "+2010"]
          (freshGuestRow 5 0 7 "G2" "+2010")).fst = Except.ok ())
    ∧ ((updateProfile [freshGuestRow 5 0 7 "G" "+2010"]
          (freshGuestRow 5 0 7 "G2" "+2010")).fst = Except.ok () →
        List.countP
          (fun r => r.id = (freshGuestRow 5 0 7 "G2" "+2010").id
            && r.clinicId = (freshGuestRow 5 0 7 "G2" "+2010").clinicId)
          [freshGuestRow 5 0 7 "G" "+2010"] ≠ 0) :=
  update_rows_affected_contract [freshGuestRow 5 0 7 "G" "+2010"]
    (freshGuestRow 5 0 7 "G2" "+2010")

/-- C8: Tenant isolation.  Every profile returned by the Smart Upsert,
by `FindByID` or by `List` scoped to clinic `B` has `clinic_id = B`;
consequently a profile row created under a distinct tenant `A` — i.e.
one whose `clinic_id` is `A ≠ B` — is never returned by any of the three
lookups scoped to `B`, even when the phone number is identical. -/
theorem tenant_isolation_lookups (db : DB) (newId : UUID) (now : Nat)
    (A B pid : UUID) (offset limit : Nat) (name phone : String) :
    (∀ p db2, findOrCreateGuestForBooking db newId now B name phone
        = (Except.ok p, db2) → p.clinicId = B)
    ∧ (∀ p, findByID db B pid = Except.ok p → p.clinicId = B)
    ∧ (∀ p, p ∈ listRepo db B offset limit → p.clinicId = B)
    ∧ (A ≠ B → ∀ p, p.clinicId = A →
        (∀ db2, findOrCreateGuestForBooking db newId now B name phone
          ≠ (Except.ok p, db2))
        ∧ findByID db B pid ≠ Except.ok p
        ∧ p ∉ listRepo db B offset limit) := by
  have h1 : ∀ p db2, findOrCreateGuestForBooking db newId now B name phone
      = (Except.ok p, db2) → p.clinicId = B := by
    intro p db2 hpd
    have hfst : (findOrCreateGuestForBooking db newId now B name phone).fst
        = Except.ok p := by rw [hpd]
    exact (smartUpsert_ok_scope hfst).1
  have h2 : ∀ p, findByID db B pid = Except.ok p → p.clinicId = B :=
    fun p hp => (findByID_ok_scope hp).1
  have h3 : ∀ p, p ∈ listRepo db B offset limit → p.clinicId = B :=
    fun p hp => (mem_listRepo_scope hp).1
  refine ⟨h1, h2, h3, fun hAB p hpA => ⟨fun db2 heq => ?_, fun heq => ?_,
    fun hmem => ?_⟩⟩
  · exact hAB (hpA ▸ h1 p db2 heq)
  · exact hAB (hpA ▸ h2 p heq)
  · exact hAB (hpA ▸ h3 p hmem)

/-- Witness for `tenant_isolation_lookups`: a table holding one active
profile of clinic 3, queried from clinic 4. -/
theorem tenant_isolation_lookups_witness :
    (∀ p db2, findOrCreateGuestForBooking [freshGuestRow 5 0 3 "G" "+2010"]
        9 1 4 "N" "+2010" = (Except.ok p, db2) → p.clinicId = 4)
    ∧ (∀ p, findByID [freshGuestRow 5 0 3 "G" "+2010"] 4 5 = Except.ok p →
        p.clinicId = 4)
    ∧ (∀ p, p ∈ listRepo [freshGuestRow 5 0 3 "G" "+2010"] 4 0 10 →
        p.clinicId = 4)
    ∧ ((3 : UUID) ≠ 4 → ∀ p, p.clinicId = 3 →
        (∀ db2, findOrCreateGuestForBooking [freshGuestRow 5 0 3 "G" "+2010"]
          9 1 4 "N" "+2010" ≠ (Except.ok p, db2))
        ∧ findByID [freshGuestRow 5 0 3 "G" "+2010"] 4 5 ≠ Except.ok p
        ∧ p ∉ listRepo [freshGuestRow 5 0 3 "G" "+2010"] 4 0 10) :=
  tenant_isolation_lookups [freshGuestRow 5 0 3 "G" "+2010"] 9 1 3 4 5 0 10
    "N" "+2010"

/-- C1: evaluation of the Smart Upsert scenario against the schema
built by the cited migration `000002`.  Both calls of the scenario —
(tenant 7, "Amina", "+201234567890"), then (tenant 7, "Badr", same
phone) on the table the first call leaves behind — fail with the
wrapped 42P10 planning error and leave the table empty: no `GUEST` row
is ever created, no profile is ever returned, and the claimed
create-then-converge behavior never occurs.  The function's own comment
("atomically finds a profile ... or creates a new GUEST profile") and
the spec describe the intended behavior; the statement as written
cannot deliver it against this schema. -/
theorem smartUpsert_arbiter_inference_fails :
    findOrCreateGuestAgainstMigration [] 7 "Amina" "+201234567890"
      = (Except.error (AppErr.wrap
          "store.FindOrCreateGuest: failed to execute query"
          (AppErr.base
            "ERROR: there is no unique or exclusion constraint matching the ON CONFLICT specification (SQLSTATE 42P10)")),
         ([] : DB))
    ∧ findOrCreateGuestAgainstMigration
        (findOrCreateGuestAgainstMigration [] 7 "Amina" "+201234567890").snd
        7 "Badr" "+201234567890"
      = (Except.error (AppErr.wrap
          "store.FindOrCreateGuest: failed to execute query"
          (AppErr.base
            "ERROR: there is no unique or exclusion constraint matching the ON CONFLICT specification (SQLSTATE 42P10)")),
         ([] : DB)) := by decide

/-- C4: evaluation of the transactional `RegisterNewPatient`
(`src/unnamed/part_001`) at a table that already holds an active `GUEST`
profile for the requested (clinic, phone).  The claim expects the
operation to set the profile's status to `REGISTERED`, persist the full
field set and return the updated profile; the code instead dereferences
its still-nil local `profile` at
`profile.ProfileStatus = model.ProfileStatusRegistered` and panics (the
sibling implementation in `src/internal/modules/patient/service.go`
assigns to the fetched profile at this point). -/
theorem registerNewPatientTx_nil_deref_panics :
    registerNewPatientTx [freshGuestRow 5 0 7 "G" "+2010"] 9 3 7
      { clinicId := 7, fullName := "Amina", phoneNumber := "+2010",
        email := none, nationalId := none, dateOfBirth := none }
      = SvcOutcome.panicked [freshGuestRow 5 0 7 "G" "+2010"] := by decide

/-- C6: evaluation of the transactional `CompleteGuestRegistration`
(`src/unnamed/part_001`) at a table holding the active `GUEST` profile
(clinic 7, id 5) being promoted.  The claim expects the call to succeed
with terminal status `REGISTERED`; the code instead dereferences its
still-nil local `profile` at
`if profile.ProfileStatus == model.ProfileStatusGuest` and panics on
every call that finds the profile (the sibling implementation in
`src/internal/modules/patient/service.go` tests the fetched profile at
this point and does satisfy the claimed monotonicity). -/
theorem completeGuestRegistrationTx_nil_deref_panics :
    completeGuestRegistrationTx [freshGuestRow 5 0 7 "G" "+2010"]
      { clinicId := 7, profileId := 5, fullName := "Amina",
        email := none, nationalId := none, dateOfBirth := none }
      = SvcOutcome.panicked [freshGuestRow 5 0 7 "G" "+2010"] := by decide

/-- Supporting fact for the comparison between the two service variants:
the plain-variant `CompleteGuestRegistration` of
`src/internal/modules/patient/service.go` does satisfy the promoted
status monotonicity.  When the fetched profile is `GUEST` or already
`REGISTERED`, any successfully returned profile has status
`REGISTERED`; a `REGISTERED` profile is never moved back to `GUEST`. -/
theorem completeGuestRegistration_plain_never_demotes (db : DB)
    (req : CompleteGuestRequest) (p q : Profile)
    (hq : findByID db req.clinicId req.profileId = Except.ok q)
    (hok : (completeGuestRegistration db req).fst = Except.ok p)
    (hstat : q.profileStatus = ProfileStatus.guest
      ∨ q.profileStatus = ProfileStatus.registered) :
    p.profileStatus = ProfileStatus.registered := by
  have hpr : (if q.profileStatus = ProfileStatus.guest then
      { q with profileStatus := ProfileStatus.registered }
      else q).profileStatus = ProfileStatus.registered := by
    rcases hstat with hg | hr
    · simp [hg]
    · simp [hr]
  simp only [completeGuestRegistration, hq, upsertProfile] at hok
  revert hok
  cases hu : updateProfile db
      { (if q.profileStatus = ProfileStatus.guest then
          { q with profileStatus := ProfileStatus.registered } else q) with
        fullName := req.fullName, email := req.email,
        nationalId := req.nationalId, dateOfBirth := req.dateOfBirth } with
  | mk res dbAfter =>
      cases res with
      | error e => intro hok; simp [hu] at hok
      | ok u =>
          intro hok
          obtain rfl : _ = p := Except.ok.inj hok
          exact hpr

/-- Witness for `completeGuestRegistration_plain_never_demotes`: promote
the one active guest profile of a one-row table. -/
theorem completeGuestRegistration_plain_never_demotes_witness :
    findByID [freshGuestRow 5 0 7 "G" "+2010"] 7 5
      = Except.ok (freshGuestRow 5 0 7 "G" "+2010")
    ∧ (completeGuestRegistration [freshGuestRow 5 0 7 "G" "+2010"]
        { clinicId := 7, profileId := 5, fullName := "Amina",
          email := none, nationalId := none, dateOfBirth := none }).fst
      = Except.ok { freshGuestRow 5 0 7 "Amina" "+2010" with
          profileStatus := ProfileStatus.registered }
    ∧ ({ freshGuestRow 5 0 7 "Amina" "+2010" with
          profileStatus := ProfileStatus.registered }).profileStatus
      = ProfileStatus.registered :=
  ⟨by decide, by decide,
   completeGuestRegistration_plain_never_demotes
     [freshGuestRow 5 0 7 "G" "+2010"]
     { clinicId := 7, profileId := 5, fullName := "Amina",
       email := none, nationalId := none, dateOfBirth := none }
     { freshGuestRow 5 0 7 "Amina" "+2010" with
       profileStatus := ProfileStatus.registered }
     (freshGuestRow 5 0 7 "G" "+2010") (by decide) (by decide)
     (Or.inl (by decide))⟩

/-- Wrapping 64-bit reduction is the identity on [0, 2 ^ 63). -/
theorem wrap64_eq_of_range {x : Int} (h0 : 0 ≤ x) (h1 : x < 2 ^ 63) :
    wrap64 x = x := by
  unfold wrap64
  omega

/-- C10 counterexample: `page = 9223372036854775807` (the largest
`int64`, parseable straight from a `?page=` query string) with
`pageSize = 50`.  Neither value triggers the clamps, and Go computes
`offset := (page - 1) * pageSize` with wrapping int64 arithmetic,
yielding -100; PostgreSQL rejects the negative OFFSET and
`ListProfiles` returns the wrapped query error instead of a silently
normalized, error-free result. -/
theorem listProfiles_overflow_cex :
    listProfiles [] 7 9223372036854775807 50
      = Except.error (AppErr.wrap "store.List: failed to query profiles"
          (AppErr.base "ERROR: OFFSET must not be negative (SQLSTATE 2201X)"))
    := by decide

/-- C10 (amended): `ListProfiles` replaces `page` by 1 when `page < 1`
and `pageSize` by 25 when `pageSize < 1` or `pageSize > 100`, then
queries with `limit = pageSize` and `offset` the wrapping-int64 product
`(page - 1) * pageSize`.  Whenever that product does not overflow
int64 — in particular for every realistic `page` — the call is the
plain clamped query, it never fails, and at most 100 profiles are
returned; only an overflowing product (wrapped to a negative offset) is
rejected by the database with an error. -/
theorem listProfiles_pagination_clamping_amended (db : DB)
    (clinicId : UUID) (page pageSize : Int)
    (hpage : page < 2 ^ 63)
    (hprod : ((if page < 1 then 1 else page) - 1)
        * (if pageSize < 1 || pageSize > 100 then 25 else pageSize)
        < 2 ^ 63) :
    listProfiles db clinicId page pageSize
      = Except.ok (listRepo db clinicId
          ((((if page < 1 then 1 else page) - 1)
            * (if pageSize < 1 || pageSize > 100 then 25 else pageSize)).toNat)
          ((if pageSize < 1 || pageSize > 100 then 25 else pageSize).toNat))
    ∧ ∀ l, listProfiles db clinicId page pageSize = Except.ok l →
        l.length ≤ 100 := by
  have hp1 : 1 ≤ (if page < 1 then 1 else page) := by
    by_cases hc : page < 1 <;> simp [hc]
    omega
  have hplt : (if page < 1 then 1 else page) < 2 ^ 63 := by
    by_cases hc : page < 1 <;> simp [hc]
    omega
  have hs1 : 1 ≤ (if pageSize < 1 || pageSize > 100 then 25 else pageSize)
      ∧ (if pageSize < 1 || pageSize > 100 then 25 else pageSize) ≤ 100 := by
    by_cases hc : (pageSize < 1 || pageSize > 100) = true
    · rw [if_pos hc]; omega
    · rw [if_neg hc]
      have h2 : ¬ pageSize < 1 ∧ ¬ pageSize > 100 := by
        simpa [not_or] using hc
      omega
  have hsub : wrap64 ((if page < 1 then 1 else page) - 1)
      = (if page < 1 then 1 else page) - 1 :=
    wrap64_eq_of_range (by omega) (by omega)
  have hmul : wrap64 (((if page < 1 then 1 else page) - 1)
      * (if pageSize < 1 || pageSize > 100 then 25 else pageSize))
      = ((if page < 1 then 1 else page) - 1)
        * (if pageSize < 1 || pageSize > 100 then 25 else pageSize) :=
    wrap64_eq_of_range (mul_nonneg (by omega) (by omega)) hprod
  have hoff : ¬ ((if page < 1 then 1 else page) - 1)
      * (if pageSize < 1 || pageSize > 100 then 25 else pageSize) < 0 := by
    have := mul_nonneg (a := (if page < 1 then 1 else page) - 1)
      (b := if pageSize < 1 || pageSize > 100 then 25 else pageSize)
      (by omega) (by omega)
    omega
  have hlim : ¬ (if pageSize < 1 || pageSize > 100 then 25 else pageSize)
      < 0 := by omega
  have hmain : listProfiles db clinicId page pageSize
      = Except.ok (listRepo db clinicId
          ((((if page < 1 then 1 else page) - 1)
            * (if pageSize < 1 || pageSize > 100 then 25 else pageSize)).toNat)
          ((if pageSize < 1 || pageSize > 100 then 25 else pageSize).toNat)) := by
    simp only [listProfiles, hsub, hmul, listRepoGo, if_neg hoff, if_neg hlim]
  refine ⟨hmain, fun l hl => ?_⟩
  rw [hmain] at hl
  obtain rfl : _ = l := Except.ok.inj hl
  calc (listRepo db clinicId
          ((((if page < 1 then 1 else page) - 1)
            * (if pageSize < 1 || pageSize > 100 then 25 else pageSize)).toNat)
          ((if pageSize < 1 || pageSize > 100 then 25 else pageSize).toNat)).length
      ≤ (if pageSize < 1 || pageSize > 100 then 25 else pageSize).toNat :=
        List.length_take_le _ _
    _ ≤ 100 := by omega

/-- Witness for `listProfiles_pagination_clamping_amended` at page 2,
pageSize 50, over a one-row table. -/
theorem listProfiles_pagination_clamping_amended_witness :
    ((2 : Int) < 2 ^ 63
      ∧ (((if (2 : Int) < 1 then 1 else 2) - 1)
          * (if (50 : Int) < 1 || (50 : Int) > 100 then 25 else 50) < 2 ^ 63))
    ∧ (listProfiles [freshGuestRow 5 0 7 "G" "+2010"] 7 2 50
        = Except.ok (listRepo [freshGuestRow 5 0 7 "G" "+2010"] 7
            ((((if (2 : Int) < 1 then (1 : Int) else 2) - 1)
              * (if (50 : Int) < 1 || (50 : Int) > 100 then (25 : Int) else 50)).toNat)
            ((if (50 : Int) < 1 || (50 : Int) > 100 then (25 : Int) else 50).toNat))
      ∧ ∀ l, listProfiles [freshGuestRow 5 0 7 "G" "+2010"] 7 2 50
          = Except.ok l → l.length ≤ 100) :=
  ⟨⟨by decide, by decide⟩,
   listProfiles_pagination_clamping_amended [freshGuestRow 5 0 7 "G" "+2010"]
     7 2 50 (by decide) (by decide)⟩
